import Mathlib

/-!
Verification of the `obsidian-podcast` persistence layer and feed pipeline.

The development shallowly embeds:
* `SingleFileStore` (src/unnamed/part_007, lines 155-363): an explicit state machine over
  `PodStore.Store`, with operations producing lists of disk effects (`PodStore.Eff`);
* `FeedService` (src/src/feed/FeedService.ts): format detection, cached fetch, and the
  three-tier transport fallback, parametric in the RSS/Atom parser and validator functions
  whose sources are not part of the snapshot;
* `SettingsStore.loadWithMigration` (src/unnamed/part_008, lines 264-290): the spread merge
  over defaults and the conditional persist, with JSON serialization modelled as a token
  stream in canonical key order.

Conventions: times are `Nat` milliseconds; JS numbers that the embedded logic never
inspects arithmetically are abstracted as `Int`; disk writes always succeed (no claim here
concerns write failures); the aggregate values held by the stores are JS objects, hence
always truthy, so the truthiness test on `this.cache` is modelled as `Option.isSome`.
-/

namespace PodStore

/-- Typed storage error of the persistence layer (`StorageError` in src/utils/errorUtils,
carrying a message and the offending path, as thrown in src/unnamed/part_007). -/
structure StorageError where
  msg : String
  path : String
  deriving DecidableEq, Repr

/-- A disk effect performed by a store operation against the vault adapter:
a read of the backing file, or a write of a serialized value. -/
inductive Eff (T : Type) where
  | read
  | write (x : T)
  deriving DecidableEq, Repr

/-- Content of the backing file as seen by `FileSystemStore.readJson`
(src/unnamed/part_007, lines 39-57): the file is absent (`adapter.exists` false),
its content does not parse as JSON (`safeJsonParse` yields the fallback),
or it parses to a value of the data type. -/
inductive DiskData (T : Type) where
  | missing
  | corrupt
  | data (d : T)
  deriving DecidableEq, Repr

/-- Mutable state of a `SingleFileStore` (src/unnamed/part_007, lines 172-363):
`cache` and `cacheTimestamp` (in-memory cache), `isDirty` (unsaved-changes flag),
`timer` (the deadline of the pending `saveDebounceTimer`, if any), and
`inflight` (whether `loadPromise` is non-null). -/
structure Store (T : Type) where
  cache : Option T
  cacheTimestamp : Nat
  isDirty : Bool
  timer : Option Nat
  inflight : Bool
  deriving DecidableEq, Repr

/-- `CACHE_TTL_MS` from src/unnamed/part_007 line 178. -/
def CACHE_TTL_MS : Nat := 2000

/-- `SAVE_DEBOUNCE_MS` from src/unnamed/part_007 line 181. -/
def SAVE_DEBOUNCE_MS : Nat := 1000

variable {T : Type}

/-- `flush` (src/unnamed/part_007, lines 302-315): clear any pending debounce timer,
then write the cached value and reset `isDirty` when `isDirty && this.cache` holds. -/
def flush (s : Store T) : Store T × List (Eff T) :=
  let s1 : Store T := { s with timer := none }
  match s1.isDirty, s1.cache with
  | true, some c => ({ s1 with isDirty := false }, [Eff.write c])
  | _, _ => (s1, [])

/-- The debounce timer callback (src/unnamed/part_007, lines 284-295): null out the timer
slot, then write the cache and reset `isDirty` when `isDirty && this.cache` holds; a failed
debounced write is logged and swallowed (writes succeed in this model). -/
def timerFire (s : Store T) : Store T × List (Eff T) :=
  let s1 : Store T := { s with timer := none }
  match s1.isDirty, s1.cache with
  | true, some c => ({ s1 with isDirty := false }, [Eff.write c])
  | _, _ => (s1, [])

/-- `save(data, immediate)` (src/unnamed/part_007, lines 253-274): validate first and throw
a `StorageError` on failure, before any mutation; otherwise update the cache, stamp the
cache timestamp with `Date.now()`, set `isDirty`, then either flush immediately or
(re)schedule the debounce timer `SAVE_DEBOUNCE_MS` from now (`scheduleDebouncedSave`,
lines 279-296, clears any previous timer). -/
def save (v : T → Bool) (path : String) (now : Nat) (x : T) (immediate : Bool)
    (s : Store T) : Except StorageError (Store T × List (Eff T)) :=
  if v x then
    let s1 : Store T := { s with cache := some x, cacheTimestamp := now, isDirty := true }
    if immediate then Except.ok (flush s1)
    else Except.ok ({ s1 with timer := some (now + SAVE_DEBOUNCE_MS) }, [])
  else
    Except.error { msg := "Data validation failed", path := path }

/-- `save` as observed by the caller: on a thrown `StorageError` the store state is the
state from before the call and no disk effect occurred. -/
def runSave (v : T → Bool) (path : String) (now : Nat) (x : T) (immediate : Bool)
    (s : Store T) : Store T × List (Eff T) × Option StorageError :=
  match save v path now x immediate s with
  | Except.ok (s2, es) => (s2, es, none)
  | Except.error e => (s, [], some e)

/-- `invalidateCache` (src/unnamed/part_007, lines 321-325): drop the cached value and
timestamp; `isDirty` and the pending timer are left untouched. -/
def invalidateCache (s : Store T) : Store T :=
  { s with cache := none, cacheTimestamp := 0 }

/-- `hasPendingChanges` (src/unnamed/part_007, lines 330-332). -/
def hasPendingChanges (s : Store T) : Bool := s.isDirty

/-- What a single `load()` call observes synchronously: it joined an in-flight load,
returned a fresh cached value, or started a new disk read. -/
inductive LoadStartRes (T : Type) where
  | joined
  | cached (c : T)
  | started
  deriving DecidableEq, Repr

/-- Result of the synchronous prefix of `load()`: successor state, disk effects, outcome. -/
structure LoadStep (T : Type) where
  st : Store T
  effs : List (Eff T)
  res : LoadStartRes T
  deriving DecidableEq, Repr

/-- Synchronous prefix of `load()` (src/unnamed/part_007, lines 199-224): if `loadPromise`
is set, return it (no disk read); else if the cache is non-null and younger than
`CACHE_TTL_MS`, return the cached value; else set `loadPromise` and start the disk read. -/
def loadStart (now : Nat) (s : Store T) : LoadStep T :=
  if s.inflight then { st := s, effs := [], res := LoadStartRes.joined }
  else
    match s.cache with
    | some c =>
      if now - s.cacheTimestamp < CACHE_TTL_MS then
        { st := s, effs := [], res := LoadStartRes.cached c }
      else
        { st := { s with inflight := true }, effs := [Eff.read], res := LoadStartRes.started }
    | none =>
      { st := { s with inflight := true }, effs := [Eff.read], res := LoadStartRes.started }

/-- Value produced by `readJson` (src/unnamed/part_007, lines 39-57) for the given disk
content, with `getDefaultValue()` as the fallback: a missing file and unparsable JSON both
yield the fallback. -/
def readResult (dk : DiskData T) (fallback : T) : T :=
  match dk with
  | DiskData.missing => fallback
  | DiskData.corrupt => fallback
  | DiskData.data d => d

/-- Result of completing an in-flight load: successor state, returned value, disk writes
performed by the completion (none: `performLoad` contains no write). -/
structure LoadDone (T : Type) where
  st : Store T
  res : T
  effs : List (Eff T)
  deriving DecidableEq, Repr

/-- Completion of the in-flight read: `performLoad` (src/unnamed/part_007, lines 229-243)
followed by the `finally` block of `load()` clearing `loadPromise`. On validation failure
the default value is returned and the cache is left untouched; on success the cache is
populated and stamped with the timestamp captured when the load started. -/
def loadComplete (v : T → Bool) (dflt : T) (startTime : Nat) (dk : DiskData T)
    (s : Store T) : LoadDone T :=
  let d := readResult dk dflt
  if v d then
    { st := { s with inflight := false, cache := some d, cacheTimestamp := startTime },
      res := d, effs := [] }
  else
    { st := { s with inflight := false }, res := dflt, effs := [] }

/-- A sequence of `load()` calls at the given times, collecting states and disk effects. -/
def loadCalls (times : List Nat) (s : Store T) : Store T × List (Eff T) :=
  match times with
  | [] => (s, [])
  | t :: rest =>
    let step := loadStart t s
    let r := loadCalls rest step.st
    (r.1, step.effs ++ r.2)

/-- A sequence of debounced `save(x, false)` calls at the given times, collecting the
final state and all disk effects; stops at the first thrown `StorageError`. -/
def saveSeq (v : T → Bool) (path : String) (calls : List (Nat × T)) (s : Store T) :
    Except StorageError (Store T × List (Eff T)) :=
  match calls with
  | [] => Except.ok (s, [])
  | (t, x) :: rest =>
    match save v path t x false s with
    | Except.error e => Except.error e
    | Except.ok (s1, es) =>
      match saveSeq v path rest s1 with
      | Except.error e => Except.error e
      | Except.ok (s2, es2) => Except.ok (s2, es ++ es2)

/-- The calls are issued in order and each one falls within one debounce window
(`SAVE_DEBOUNCE_MS`) of the previous one. -/
def chainOk : List (Nat × T) → Bool
  | [] => true
  | [_] => true
  | (t1, _) :: (t2, x2) :: rest =>
    decide (t1 ≤ t2) && decide (t2 < t1 + SAVE_DEBOUNCE_MS) && chainOk ((t2, x2) :: rest)

/-- Last element of a call list. -/
def lastOf : List (Nat × T) → Option (Nat × T)
  | [] => none
  | [p] => some p
  | _ :: q :: rest => lastOf (q :: rest)

/-- A freshly constructed store over `Nat` payloads: empty cache, clean, no timer,
no in-flight load. -/
def freshNat : Store Nat :=
  { cache := none, cacheTimestamp := 0, isDirty := false, timer := none, inflight := false }

/-- A store over `Nat` payloads holding a cached value stamped at time 0. -/
def cachedNat : Store Nat :=
  { cache := some 3, cacheTimestamp := 0, isDirty := false, timer := none, inflight := false }

end PodStore

namespace PodFeed

/-- ASCII whitespace, the characters relevant to the feed documents considered here. -/
def isWs (c : Char) : Bool := c = ' ' || c = '\n' || c = '\t' || c = '\r'

/-- JS `String.prototype.trim`, modelled on the character list. -/
def trimStr (s : String) : String :=
  String.mk (((s.data.dropWhile isWs).reverse.dropWhile isWs).reverse)

/-- JS `String.prototype.toLowerCase`, modelled with `Char.toLower`. -/
def toLowerStr (s : String) : String := String.mk (s.data.map Char.toLower)

/-- The first list is a prefix of the second. -/
def listPrefixOf : List Char → List Char → Bool
  | [], _ => true
  | _ :: _, [] => false
  | a :: as, b :: bs => a == b && listPrefixOf as bs

/-- The first list occurs as a contiguous segment of the second. -/
def listInfixOf (pat : List Char) : List Char → Bool
  | [] => listPrefixOf pat []
  | c :: cs => listPrefixOf pat (c :: cs) || listInfixOf pat cs

/-- JS `String.prototype.includes`. -/
def containsSub (s pat : String) : Bool := listInfixOf pat.data s.data

/-- `FeedType` (src/src/feed/FeedService.ts, lines 21-25). -/
inductive FeedType where
  | rss
  | atom
  | unknown
  deriving DecidableEq, Repr

/-- The Atom namespace marker checked by `detectFeedType`
(src/src/feed/FeedService.ts, line 319). -/
def atomNs : String := "xmlns=\"http://www.w3.org/2005/atom\""

/-- `FeedService.detectFeedType` (src/src/feed/FeedService.ts, lines 310-333), parametric
in the two schema validators `RSSParser.validateXML` / `AtomParser.validateXML`, whose
sources are not part of the snapshot: lowercase the trimmed text; an `<rss` substring wins
first, then `<feed` together with the Atom namespace, then the validators in RSS-then-Atom
order on the original text, otherwise `unknown`. -/
def detectFeedType (rssValid atomValid : String → Bool) (xml : String) : FeedType :=
  let trimmed := toLowerStr (trimStr xml)
  if containsSub trimmed "<rss" then FeedType.rss
  else if containsSub trimmed "<feed" && containsSub trimmed atomNs then FeedType.atom
  else if rssValid xml then FeedType.rss
  else if atomValid xml then FeedType.atom
  else FeedType.unknown

/-- A feed cache entry: raw XML plus cache and conditional-request metadata
(spec section 3, `CacheEntry`). -/
structure CacheEntry where
  data : String
  cachedAt : Nat
  ttl : Nat
  etag : Option String
  lastModified : Option String
  deriving DecidableEq, Repr

/-- Association lookup in the cache store, keyed by feed URL. -/
def dbFind : List (String × CacheEntry) → String → Option CacheEntry
  | [], _ => none
  | (k, e) :: rest, u => if k = u then some e else dbFind rest u

/-- Modelled from the spec: `FeedCacheStore.getCacheEntry` (src/storage/CacheStore is not
part of the snapshot). Returns the stored entry for the URL when present and non-expired;
per the spec an entry expires when `now > cachedAt + ttl`, evaluated at read time, and the
integrated fetch path treats an expired entry as a miss. -/
def getCacheEntry (db : List (String × CacheEntry)) (now : Nat) (u : String) :
    Option CacheEntry :=
  match dbFind db u with
  | none => none
  | some e => if e.cachedAt + e.ttl < now then none else some e

/-- The normalized `{podcast, episodes}` output of a feed parser, abstracted as an opaque
token recording which XML text was parsed (the parser sources are not in the snapshot; the
claims treat parse results opaquely). -/
structure ParsedFeed where
  sourceXml : String
  deriving DecidableEq, Repr

/-- The `{xml, responseEtag, responseLastModified}` record returned by `fetchFeedXML`
(src/src/feed/FeedService.ts, line 166). -/
structure FetchedXml where
  xml : String
  responseEtag : Option String
  responseLastModified : Option String
  deriving DecidableEq, Repr

/-- Errors of the fetch pipeline: the distinguished `Error('NOT_MODIFIED')` signal, a
generic thrown transport error, a `NetworkError` without a cause (message, url), a
`NetworkError` carrying a cause, and a parser failure. -/
inductive FetchErr where
  | notModifiedSig
  | transport (msg : String)
  | networkMsg (msg : String) (u : String)
  | networkCause (msg : String) (u : String) (cause : FetchErr)
  | parseFailed (u : String)
  deriving DecidableEq, Repr

/-- `FeedService.getCachedFeed` (src/src/feed/FeedService.ts, lines 338-366): look up the
cache entry; if present, detect the format of the cached XML and parse with the matching
parser; `unknown` format, a missing entry, or a parser failure (caught) all yield `none`. -/
def getCachedFeed (rssValid atomValid : String → Bool)
    (rssParse atomParse : String → Option ParsedFeed)
    (db : List (String × CacheEntry)) (now : Nat) (u : String) : Option ParsedFeed :=
  match getCacheEntry db now u with
  | none => none
  | some e =>
    match detectFeedType rssValid atomValid e.data with
    | FeedType.rss => rssParse e.data
    | FeedType.atom => atomParse e.data
    | FeedType.unknown => none

/-- `FeedService.fetchFeed` (src/src/feed/FeedService.ts, lines 62-126). The network stage
outcome is supplied as the parameter `net` (what `fetchFeedXML` would produce); parsers
return `none` where the source parser throws. The second component records whether the
network stage ran. The best-effort cache write after a successful network parse is logged
and swallowed on failure and is not a claim subject, so it is not tracked. -/
def fetchFeed (rssValid atomValid : String → Bool)
    (rssParse atomParse : String → Option ParsedFeed)
    (useCache : Bool) (cacheStore : Option (List (String × CacheEntry)))
    (now : Nat) (u : String) (net : Except FetchErr FetchedXml) :
    Except FetchErr ParsedFeed × Bool :=
  let cachedData : Option ParsedFeed :=
    if useCache then
      match cacheStore with
      | some db => getCachedFeed rssValid atomValid rssParse atomParse db now u
      | none => none
    else none
  match cachedData with
  | some r => (Except.ok r, false)
  | none =>
    match net with
    | Except.error e => (Except.error e, true)
    | Except.ok f =>
      let parsed : Option ParsedFeed :=
        match detectFeedType rssValid atomValid f.xml with
        | FeedType.rss => rssParse f.xml
        | FeedType.atom => atomParse f.xml
        | FeedType.unknown =>
          match rssParse f.xml with
          | some r => some r
          | none => atomParse f.xml
      match parsed with
      | some r => (Except.ok r, true)
      | none => (Except.error (FetchErr.parseFailed u), true)

/-- An HTTP response as observed by a transport: status, body text, and the two
conditional-request response headers. -/
structure HttpResp where
  status : Nat
  body : String
  etag : Option String
  lastModified : Option String
  deriving DecidableEq, Repr

/-- The attempt body passed to `retryWithBackoff` (src/src/feed/FeedService.ts,
lines 171-212): `requestUrl` with `throw: false` either throws (transport error) or yields
a response; status 304 raises the `NOT_MODIFIED` signal, status >= 400 raises a
`NetworkError` naming the URL, anything else succeeds. -/
def tier1Attempt (u : String) (r : Except FetchErr HttpResp) : Except FetchErr HttpResp :=
  match r with
  | Except.error e => Except.error e
  | Except.ok resp =>
    if resp.status = 304 then Except.error FetchErr.notModifiedSig
    else if 400 ≤ resp.status then
      Except.error
        (FetchErr.networkMsg ("HTTP " ++ Nat.repr resp.status ++ ": Failed to fetch feed") u)
    else Except.ok resp

/-- Modelled from the spec: `retryWithBackoff` from src/utils/errorUtils (not part of the
snapshot): sequential attempts with exponential backoff, first success wins, otherwise the
last attempt's failure propagates; `fetchFeedXML` invokes it with `maxRetries := 3`.
`retryWithBackoff f i n` runs attempts `f i, f (i+1), ...`, at most `n` of them. -/
def retryWithBackoff (f : Nat → Except FetchErr HttpResp) :
    Nat → Nat → Except FetchErr HttpResp
  | i, 0 => f i
  | i, 1 => f i
  | i, n + 2 =>
    match f i with
    | Except.ok a => Except.ok a
    | Except.error _ => retryWithBackoff f (i + 1) (n + 1)

/-- Success range of an HTTP status, as tested by `fetchResponse.ok` and by the tier-3
handler (`statusCode >= 200 && statusCode < 300`). -/
def respOk (r : HttpResp) : Bool := decide (200 ≤ r.status) && decide (r.status < 300)

/-- Tier 2 of the fallback chain (src/src/feed/FeedService.ts, lines 237-252): the native
`fetch`; a thrown error or a non-ok status fails the tier. -/
def tier2Run (t2 : Except FetchErr HttpResp) : Except FetchErr FetchedXml :=
  match t2 with
  | Except.error e => Except.error e
  | Except.ok r =>
    if respOk r then
      Except.ok { xml := r.body, responseEtag := r.etag, responseLastModified := r.lastModified }
    else Except.error (FetchErr.transport ("Fetch returned status " ++ Nat.repr r.status))

/-- Tier 3 of the fallback chain (src/src/feed/FeedService.ts, lines 258-297): the raw
Node https request (certificate validation relaxed, not modelled); a request error or a
status outside 200-299 rejects. -/
def tier3Run (t3 : Except FetchErr HttpResp) : Except FetchErr FetchedXml :=
  match t3 with
  | Except.error e => Except.error e
  | Except.ok r =>
    if respOk r then
      Except.ok { xml := r.body, responseEtag := r.etag, responseLastModified := r.lastModified }
    else
      Except.error
        (FetchErr.transport ("HTTPS Node request returned status " ++ Nat.repr r.status))

/-- `FeedService.fetchFeedXML` (src/src/feed/FeedService.ts, lines 160-305): tier 1 runs
the `requestUrl` attempt under `retryWithBackoff`; a `NOT_MODIFIED` outcome is rethrown
untouched before any fallback; any other failure tries tier 2 (`fetch`) and then tier 3
(Node https); if those both fail, a `NetworkError` naming the URL and carrying the tier-3
cause is raised. The transports' outcomes are supplied as parameters; the two booleans
record whether tier 2 and tier 3 were attempted. -/
def fetchFeedXML (u : String) (t1 : Nat → Except FetchErr HttpResp)
    (t2 t3 : Except FetchErr HttpResp) :
    Except FetchErr FetchedXml × Bool × Bool :=
  match retryWithBackoff (fun i => tier1Attempt u (t1 i)) 0 3 with
  | Except.ok r =>
    (Except.ok { xml := r.body, responseEtag := r.etag, responseLastModified := r.lastModified },
      false, false)
  | Except.error e =>
    if e = FetchErr.notModifiedSig then (Except.error FetchErr.notModifiedSig, false, false)
    else
      match tier2Run t2 with
      | Except.ok x => (Except.ok x, true, false)
      | Except.error _ =>
        match tier3Run t3 with
        | Except.ok x => (Except.ok x, true, true)
        | Except.error e3 =>
          (Except.error (FetchErr.networkCause "Failed to fetch feed" u e3), true, true)

/-- Modelled from the spec: `RSSParser.validateXML` (src/feed/RSSParser is not part of the
snapshot) — the parser's schema check, accepting documents whose lowercased text carries an
rss root tag. -/
def rssValidateXML (xml : String) : Bool := containsSub (toLowerStr (trimStr xml)) "<rss"

/-- Modelled from the spec: `AtomParser.validateXML` (src/feed/AtomParser is not part of
the snapshot) — the parser's schema check, accepting documents whose lowercased text
carries a feed root tag. -/
def atomValidateXML (xml : String) : Bool := containsSub (toLowerStr (trimStr xml)) "<feed"

/-- Modelled from the spec: `RSSParser.parseFromString` — parses RSS XML to normalized
records, throwing (here `none`) on a document that is not an RSS feed; the successful
result is abstracted as the opaque `ParsedFeed` token of the input. -/
def rssParseFromString (xml : String) : Option ParsedFeed :=
  if rssValidateXML xml then some { sourceXml := xml } else none

/-- Modelled from the spec: `AtomParser.parseFromString` — as `rssParseFromString`, for
Atom documents. -/
def atomParseFromString (xml : String) : Option ParsedFeed :=
  if atomValidateXML xml then some { sourceXml := xml } else none

/-- An Atom document that embeds an rss-like string inside CDATA content
(the edge case named by the spec's format-detection note). -/
def atomCdataXml : String :=
  "<feed xmlns=\"http://www.w3.org/2005/atom\"><entry><content><![CDATA[<rss version=2]]></content></entry></feed>"

/-- Fixture URL for the cached-fetch scenarios. -/
def c6url : String := "https://example.com/feed"

/-- Fixture cache store holding a non-expired entry for `c6url` whose payload is not
recognizable as RSS or Atom. -/
def c6db : List (String × CacheEntry) :=
  [(c6url, { data := "hello", cachedAt := 0, ttl := 1000, etag := none, lastModified := none })]

/-- Fixture network stage outcome: a successful fetch of a small RSS document. -/
def c6net : FetchedXml :=
  { xml := "<rss><channel><title>t</title></channel></rss>", responseEtag := none,
    responseLastModified := none }

/-- Fixture cached RSS payload. -/
def cachedRssXml : String := "<rss><channel><title>cached</title></channel></rss>"

/-- Fixture cache store holding a non-expired RSS entry for `c6url`. -/
def c6goodDb : List (String × CacheEntry) :=
  [(c6url,
    { data := cachedRssXml, cachedAt := 0, ttl := 1000, etag := none, lastModified := none })]

/-- Fixture RSS document. -/
def rssSampleXml : String := "<rss version=2><channel><title>t</title></channel></rss>"

/-- Fixture Atom document. -/
def atomSampleXml : String := "<feed xmlns=\"http://www.w3.org/2005/atom\"><title>t</title></feed>"

/-- Fixture HTTP response with status 304. -/
def resp304 : HttpResp := { status := 304, body := "", etag := none, lastModified := none }

end PodFeed

namespace PodSettings

/-- The nested `defaultPlaybackSettings` object of `PluginSettings` (src/model is not part
of the snapshot; field set and order per the spec's data model and the SettingsStore code).
JS numeric values are abstracted as `Int`: the migration logic never inspects them. -/
structure PlaybackDefaults where
  volume : Int
  playbackSpeed : Int
  skipIntroSeconds : Int
  skipOutroSeconds : Int
  deriving DecidableEq, Repr

/-- `PluginSettings` (spec section 3): the settings aggregate with every field present. -/
structure PluginSettings where
  dataFolderPath : String
  defaultPlaybackSettings : PlaybackDefaults
  autoDownload : Bool
  maxCacheEpisodes : Int
  feedUpdateInterval : Int
  enableNotifications : Bool
  deriving DecidableEq, Repr

/-- A possibly-partial playback object as read from an older settings file: each field may
be absent (`undefined` after `JSON.parse`). -/
structure LoadedPlayback where
  volume : Option Int
  playbackSpeed : Option Int
  skipIntroSeconds : Option Int
  skipOutroSeconds : Option Int
  deriving DecidableEq, Repr

/-- A possibly-partial settings object as returned by `load()` from an older settings
file: each top-level field may be absent. -/
structure LoadedSettings where
  dataFolderPath : Option String
  defaultPlaybackSettings : Option LoadedPlayback
  autoDownload : Option Bool
  maxCacheEpisodes : Option Int
  feedUpdateInterval : Option Int
  enableNotifications : Option Bool
  deriving DecidableEq, Repr

/-- One token of the `JSON.stringify` output stream. Serialization is modelled as a token
list in the canonical key order used by the plugin when writing settings files; absent
fields produce no tokens, exactly as `JSON.stringify` omits absent keys. -/
inductive Tok where
  | key (k : String)
  | vstr (s : String)
  | vnum (n : Int)
  | vbool (b : Bool)
  | objStart
  | objEnd
  deriving DecidableEq, Repr

/-- Tokens of one optional scalar entry: nothing when the field is absent. -/
def optEntry (k : String) : Option Tok → List Tok
  | some t => [Tok.key k, t]
  | none => []

/-- `JSON.stringify` of a complete playback object. -/
def pbToks (p : PlaybackDefaults) : List Tok :=
  [Tok.objStart, Tok.key "volume", Tok.vnum p.volume,
   Tok.key "playbackSpeed", Tok.vnum p.playbackSpeed,
   Tok.key "skipIntroSeconds", Tok.vnum p.skipIntroSeconds,
   Tok.key "skipOutroSeconds", Tok.vnum p.skipOutroSeconds, Tok.objEnd]

/-- `JSON.stringify` of a possibly-partial playback object. -/
def loadedPbToks (p : LoadedPlayback) : List Tok :=
  [Tok.objStart] ++ optEntry "volume" (p.volume.map Tok.vnum) ++
  optEntry "playbackSpeed" (p.playbackSpeed.map Tok.vnum) ++
  optEntry "skipIntroSeconds" (p.skipIntroSeconds.map Tok.vnum) ++
  optEntry "skipOutroSeconds" (p.skipOutroSeconds.map Tok.vnum) ++ [Tok.objEnd]

/-- `JSON.stringify` of a complete settings aggregate. -/
def settingsToks (s : PluginSettings) : List Tok :=
  [Tok.objStart, Tok.key "dataFolderPath", Tok.vstr s.dataFolderPath,
   Tok.key "defaultPlaybackSettings"] ++ pbToks s.defaultPlaybackSettings ++
  [Tok.key "autoDownload", Tok.vbool s.autoDownload,
   Tok.key "maxCacheEpisodes", Tok.vnum s.maxCacheEpisodes,
   Tok.key "feedUpdateInterval", Tok.vnum s.feedUpdateInterval,
   Tok.key "enableNotifications", Tok.vbool s.enableNotifications, Tok.objEnd]

/-- `JSON.stringify` of a possibly-partial settings aggregate. -/
def loadedToks (s : LoadedSettings) : List Tok :=
  [Tok.objStart] ++ optEntry "dataFolderPath" (s.dataFolderPath.map Tok.vstr) ++
  (match s.defaultPlaybackSettings with
   | some p => [Tok.key "defaultPlaybackSettings"] ++ loadedPbToks p
   | none => []) ++
  optEntry "autoDownload" (s.autoDownload.map Tok.vbool) ++
  optEntry "maxCacheEpisodes" (s.maxCacheEpisodes.map Tok.vnum) ++
  optEntry "feedUpdateInterval" (s.feedUpdateInterval.map Tok.vnum) ++
  optEntry "enableNotifications" (s.enableNotifications.map Tok.vbool) ++ [Tok.objEnd]

/-- The playback object whose spread contributes nothing: what
`...settings.defaultPlaybackSettings` spreads when the loaded field is `undefined`. -/
def emptyLoadedPb : LoadedPlayback :=
  { volume := none, playbackSpeed := none, skipIntroSeconds := none, skipOutroSeconds := none }

/-- The nested spread `{...DEFAULT_SETTINGS.defaultPlaybackSettings,
...settings.defaultPlaybackSettings}` of `loadWithMigration` (src/unnamed/part_008,
lines 275-279): a loaded field overrides the default, an absent one falls back. -/
def mergePb (d : PlaybackDefaults) (p : LoadedPlayback) : PlaybackDefaults :=
  { volume := p.volume.getD d.volume,
    playbackSpeed := p.playbackSpeed.getD d.playbackSpeed,
    skipIntroSeconds := p.skipIntroSeconds.getD d.skipIntroSeconds,
    skipOutroSeconds := p.skipOutroSeconds.getD d.skipOutroSeconds }

/-- The top-level spread `{...this.getDefaultValue(), ...settings, defaultPlaybackSettings
:= ...}` of `loadWithMigration` (src/unnamed/part_008, lines 272-280). -/
def migrateSettings (d : PluginSettings) (s : LoadedSettings) : PluginSettings :=
  { dataFolderPath := s.dataFolderPath.getD d.dataFolderPath,
    defaultPlaybackSettings :=
      mergePb d.defaultPlaybackSettings (s.defaultPlaybackSettings.getD emptyLoadedPb),
    autoDownload := s.autoDownload.getD d.autoDownload,
    maxCacheEpisodes := s.maxCacheEpisodes.getD d.maxCacheEpisodes,
    feedUpdateInterval := s.feedUpdateInterval.getD d.feedUpdateInterval,
    enableNotifications := s.enableNotifications.getD d.enableNotifications }

/-- `SettingsStore.loadWithMigration` (src/unnamed/part_008, lines 264-290) with the
`load()` result supplied as `s` and `getDefaultValue()` as `d`: merge over the defaults
and call `save` exactly when `JSON.stringify(settings) !== JSON.stringify(migratedSettings)`.
Returns the migrated settings and whether `save` was called. -/
def loadWithMigration (d : PluginSettings) (s : LoadedSettings) : PluginSettings × Bool :=
  let m := migrateSettings d s
  (m, decide (loadedToks s ≠ settingsToks m))

/-- All four playback fields are present. -/
def completePb (p : LoadedPlayback) : Bool :=
  p.volume.isSome && p.playbackSpeed.isSome && p.skipIntroSeconds.isSome &&
  p.skipOutroSeconds.isSome

/-- Every field of the loaded settings (including the nested playback fields) is present. -/
def completeLoaded (s : LoadedSettings) : Bool :=
  s.dataFolderPath.isSome &&
  (match s.defaultPlaybackSettings with
   | some p => completePb p
   | none => false) &&
  s.autoDownload.isSome && s.maxCacheEpisodes.isSome && s.feedUpdateInterval.isSome &&
  s.enableNotifications.isSome

/-- Modelled from the spec: `DEFAULT_SETTINGS` from src/model (not part of the snapshot).
Concrete values chosen inside the spec's documented ranges; `skipOutroSeconds` defaults to
0 per the SettingsStore migration tests. The claims proved here do not depend on the
values. -/
def DEFAULT_SETTINGS : PluginSettings :=
  { dataFolderPath := "podcast-player",
    defaultPlaybackSettings :=
      { volume := 1, playbackSpeed := 1, skipIntroSeconds := 0, skipOutroSeconds := 0 },
    autoDownload := false,
    maxCacheEpisodes := 50,
    feedUpdateInterval := 3600000,
    enableNotifications := true }

/-- A fully-populated loaded settings value, used as a concrete instance. -/
def fullLoaded : LoadedSettings :=
  { dataFolderPath := some "custom/path",
    defaultPlaybackSettings :=
      some { volume := some 1, playbackSpeed := some 2, skipIntroSeconds := some 0,
             skipOutroSeconds := some 3 },
    autoDownload := some true,
    maxCacheEpisodes := some 20,
    feedUpdateInterval := some 60,
    enableNotifications := some false }

end PodSettings

namespace PodStore

variable {T : Type}

/-- A `load()` call that finds `loadPromise` set returns it unchanged: same state, no disk
effect, joined result. -/
theorem loadStart_inflight (t : Nat) (s : Store T) (h : s.inflight = true) :
    loadStart t s = { st := s, effs := [], res := LoadStartRes.joined } := by
  simp [loadStart, h]

/-- Any number of `load()` calls issued while a load is in flight leave the state
unchanged and perform no disk effect. -/
theorem loadCalls_inflight (times : List Nat) (s : Store T) (h : s.inflight = true) :
    loadCalls times s = (s, []) := by
  induction times with
  | nil => rfl
  | cons t rest ih => simp [loadCalls, loadStart_inflight t s h, ih]

/-- A nonempty run of debounced `save` calls that all validate ends in the state stamped
by the last call, with no disk effect performed. -/
theorem saveSeq_all_valid (v : T → Bool) (path : String) :
    ∀ (calls : List (Nat × T)) (s : Store T) (tN : Nat) (xN : T),
      (∀ p ∈ calls, v p.2 = true) → lastOf calls = some (tN, xN) →
      saveSeq v path calls s =
        Except.ok ({ s with
          cache := some xN, cacheTimestamp := tN, isDirty := true,
          timer := some (tN + SAVE_DEBOUNCE_MS) }, []) := by
  intro calls
  induction calls with
  | nil => intro s tN xN hval hlast; simp [lastOf] at hlast
  | cons p rest ih =>
    intro s tN xN hval hlast
    obtain ⟨t, x⟩ := p
    have hx : v x = true := hval (t, x) (List.mem_cons_self _ _)
    cases rest with
    | nil =>
      simp [lastOf] at hlast
      obtain ⟨rfl, rfl⟩ := hlast
      simp [saveSeq, save, hx]
    | cons q rest2 =>
      have hlast2 : lastOf (q :: rest2) = some (tN, xN) := by
        simpa [lastOf] using hlast
      have ihh := ih ({ s with
          cache := some x, cacheTimestamp := t, isDirty := true,
          timer := some (t + SAVE_DEBOUNCE_MS) }) tN xN
        (fun r hr => hval r (List.mem_cons_of_mem _ hr)) hlast2
      have hsave : save v path t x false s =
          Except.ok (({ s with
            cache := some x, cacheTimestamp := t, isDirty := true,
            timer := some (t + SAVE_DEBOUNCE_MS) } : Store T), ([] : List (Eff T))) := by
        simp [save, hx]
      have hstep : saveSeq v path ((t, x) :: q :: rest2) s =
          (match save v path t x false s with
           | Except.error e => Except.error e
           | Except.ok (s1, es) =>
             match saveSeq v path (q :: rest2) s1 with
             | Except.error e => Except.error e
             | Except.ok (s2, es2) => Except.ok (s2, es ++ es2)) := rfl
      rw [hstep, hsave]
      simp [ihh]

/-- Claim C1: for every SingleFileStore, while a load's disk read is in flight, every
`load()` call issued before it resolves joins the same in-flight result and performs no
additional disk read — exactly one disk read (the one issued when the in-flight load
started) serves all concurrent callers; the in-flight slot is cleared when the read
completes, so a later `load()` (here: one issued after the cache has aged past the TTL)
starts a fresh disk read. -/
theorem claim_C1_load_dedup (v : T → Bool) (dflt : T) (s : Store T)
    (now : Nat) (dk : DiskData T)
    (hin : s.inflight = false)
    (hmiss : s.cache = none ∨ CACHE_TTL_MS ≤ now - s.cacheTimestamp) :
    (loadStart now s).effs = [Eff.read] ∧
    (loadStart now s).st = { s with inflight := true } ∧
    (∀ times : List Nat,
      loadCalls times (loadStart now s).st = ((loadStart now s).st, [])) ∧
    (∀ t : Nat, (loadStart t (loadStart now s).st).res = LoadStartRes.joined) ∧
    (loadComplete v dflt now dk (loadStart now s).st).st.inflight = false ∧
    (v (readResult dk dflt) = true → ∀ now2 : Nat, CACHE_TTL_MS ≤ now2 - now →
      (loadStart now2 (loadComplete v dflt now dk (loadStart now s).st).st).effs =
        [Eff.read]) := by
  have hstart : loadStart now s =
      { st := { s with inflight := true }, effs := [Eff.read],
        res := LoadStartRes.started } := by
    rcases hmiss with h | h
    · simp [loadStart, hin, h]
    · cases hc : s.cache with
      | none => simp [loadStart, hin, hc]
      | some c =>
        have : ¬ (now - s.cacheTimestamp < CACHE_TTL_MS) := by omega
        simp [loadStart, hin, hc, this]
  rw [hstart]
  refine ⟨rfl, rfl, ?_, ?_, ?_, ?_⟩
  · intro times
    exact loadCalls_inflight times _ rfl
  · intro t
    rw [loadStart_inflight t _ rfl]
  · by_cases hd : v (readResult dk dflt) = true
    · simp [loadComplete, hd]
    · simp [loadComplete, hd]
  · intro hd now2 hge
    have hcomp : (loadComplete v dflt now dk { s with inflight := true }).st =
        { s with
          inflight := false, cache := some (readResult dk dflt),
          cacheTimestamp := now } := by
      simp [loadComplete, hd]
    rw [hcomp]
    have : ¬ (now2 - now < CACHE_TTL_MS) := by omega
    simp [loadStart, this]

/-- Claim C2: N >= 1 debounced `save(x_i, false)` calls, each within one debounce window
of the previous, perform no disk write while the window is open, leave the cache holding
the last value with the timer restarted at each call (last deadline `t_N + 1000`), and the
subsequent timer fire performs exactly one disk write, containing the last saved value. -/
theorem claim_C2_debounce (v : T → Bool) (path : String) (calls : List (Nat × T))
    (s : Store T) (tN : Nat) (xN : T)
    (hne : calls ≠ [])
    (hval : ∀ p ∈ calls, v p.2 = true)
    (hchain : chainOk calls = true)
    (hlast : lastOf calls = some (tN, xN)) :
    saveSeq v path calls s =
      Except.ok ({ s with
        cache := some xN, cacheTimestamp := tN, isDirty := true,
        timer := some (tN + SAVE_DEBOUNCE_MS) }, []) ∧
    timerFire ({ s with
        cache := some xN, cacheTimestamp := tN, isDirty := true,
        timer := some (tN + SAVE_DEBOUNCE_MS) }) =
      ({ s with
        cache := some xN, cacheTimestamp := tN, isDirty := false, timer := none },
        [Eff.write xN]) ∧
    (∀ (t : Nat) (x : T) (s2 : Store T), v x = true →
      save v path t x false s2 =
        Except.ok ({ s2 with
          cache := some x, cacheTimestamp := t, isDirty := true,
          timer := some (t + SAVE_DEBOUNCE_MS) }, [])) := by
  refine ⟨saveSeq_all_valid v path calls s tN xN hval hlast, ?_, ?_⟩
  · simp [timerFire]
  · intro t x s2 hx
    simp [save, hx]

/-- Claim C3: a `load()` issued while the cache is populated and younger than the TTL,
with no in-flight load, performs zero disk reads and returns the cached value; and after
any successful `save(x, immediate)`, a `load()` within the TTL of the save returns `x`
with zero disk reads, whether or not the disk write has happened. -/
theorem claim_C3_cache_ttl (v : T → Bool) (path : String) (s : Store T) (c x : T)
    (now now2 : Nat) (immediate : Bool) :
    (s.inflight = false → s.cache = some c → now - s.cacheTimestamp < CACHE_TTL_MS →
      loadStart now s = { st := s, effs := [], res := LoadStartRes.cached c }) ∧
    (∀ (st2 : Store T) (es : List (Eff T)),
      s.inflight = false → save v path now x immediate s = Except.ok (st2, es) →
      now2 - now < CACHE_TTL_MS →
      loadStart now2 st2 = { st := st2, effs := [], res := LoadStartRes.cached x }) := by
  constructor
  · intro h1 h2 h3
    simp [loadStart, h1, h2, h3]
  · intro st2 es h1 hsave h3
    by_cases hx : v x = true
    · cases immediate with
      | false =>
        simp [save, hx] at hsave
        obtain ⟨rfl, rfl⟩ := hsave
        simp [loadStart, h1, h3]
      | true =>
        simp [save, hx, flush] at hsave
        obtain ⟨rfl, rfl⟩ := hsave
        simp [loadStart, h1, h3]
    · simp [save, hx] at hsave

/-- Claim C4: `save(x, immediate)` with a payload failing `validate` throws a
`StorageError` for either value of `immediate`, performs no disk write, and leaves the
store state (cache, cache timestamp, dirty flag, timer) exactly as before the call. -/
theorem claim_C4_validation_gate (v : T → Bool) (path : String) (now : Nat) (x : T)
    (s : Store T) (h : v x = false) :
    runSave v path now x true s =
      (s, [], some { msg := "Data validation failed", path := path }) ∧
    runSave v path now x false s =
      (s, [], some { msg := "Data validation failed", path := path }) := by
  constructor <;> simp [runSave, save, h]

/-- Claim C5: completing a `load()` over a missing file, over content that does not parse
as JSON, or over data failing `validate` returns `getDefaultValue()` without raising an
error and performs no disk write (the default is never persisted); in the
validation-failure case the state is unchanged except for clearing the in-flight slot, so
the cache is not populated with the default. -/
theorem claim_C5_corruption_recovery (v : T → Bool) (dflt : T) (t : Nat) (s : Store T)
    (x : T) (hx : v x = false) :
    ((loadComplete v dflt t DiskData.missing s).res = dflt ∧
      (loadComplete v dflt t DiskData.missing s).effs = []) ∧
    ((loadComplete v dflt t DiskData.corrupt s).res = dflt ∧
      (loadComplete v dflt t DiskData.corrupt s).effs = []) ∧
    (loadComplete v dflt t (DiskData.data x) s =
      { st := { s with inflight := false }, res := dflt, effs := [] }) := by
  refine ⟨?_, ?_, ?_⟩
  · by_cases hd : v dflt = true <;> simp [loadComplete, readResult, hd]
  · by_cases hd : v dflt = true <;> simp [loadComplete, readResult, hd]
  · simp [loadComplete, readResult, hx]

/-- Claim C10 (amended): a successful debounced `save()` sets `hasPendingChanges()` and
performs no write; a successful immediate `save()` writes within the call and leaves
`hasPendingChanges()` false; `flush()` — and likewise the debounce timer callback — resets
`hasPendingChanges()` to false and writes the cached value whenever the store is dirty and
the cache is populated (in particular whenever no `invalidateCache()` intervened since the
save); `flush()` with `hasPendingChanges()` false performs no disk write; and `flush()` is
idempotent. -/
theorem claim_C10_dirty_flag (v : T → Bool) (path : String) (now : Nat) (x : T)
    (s : Store T) (c : T) :
    (v x = true →
      runSave v path now x false s =
        ({ s with
          cache := some x, cacheTimestamp := now, isDirty := true,
          timer := some (now + SAVE_DEBOUNCE_MS) }, [], none) ∧
      hasPendingChanges ({ s with
        cache := some x, cacheTimestamp := now, isDirty := true,
        timer := some (now + SAVE_DEBOUNCE_MS) }) = true) ∧
    (v x = true →
      runSave v path now x true s =
        ({ s with
          cache := some x, cacheTimestamp := now, isDirty := false, timer := none },
          [Eff.write x], none) ∧
      hasPendingChanges ({ s with
        cache := some x, cacheTimestamp := now, isDirty := false, timer := none }) =
        false) ∧
    (s.isDirty = true → s.cache = some c →
      flush s = ({ s with timer := none, isDirty := false }, [Eff.write c]) ∧
      timerFire s = ({ s with timer := none, isDirty := false }, [Eff.write c]) ∧
      hasPendingChanges ({ s with timer := none, isDirty := false }) = false) ∧
    (s.isDirty = false → (flush s).2 = []) ∧
    flush (flush s).1 = ((flush s).1, []) := by
  refine ⟨?_, ?_, ?_, ?_, ?_⟩
  · intro hx
    exact ⟨by simp [runSave, save, hx], rfl⟩
  · intro hx
    refine ⟨?_, rfl⟩
    simp [runSave, save, hx, flush]
  · intro h1 h2
    refine ⟨?_, ?_, rfl⟩ <;> simp [flush, timerFire, h1, h2]
  · intro h1
    cases hc : s.cache <;> simp [flush, h1, hc]
  · rcases h1 : s.isDirty <;> rcases hc : s.cache <;> simp [flush, h1, hc]

/-- Claim C10, counterexample to the claim as stated: starting from a fresh store, a
successful debounced `save(7)` followed by `invalidateCache()` and then a successful
`flush()` leaves `hasPendingChanges()` true — the flush succeeds, writes nothing (the
dirty flag is set but the cache is empty), and does not reset the flag, although the saved
data never reached disk. -/
theorem claim_C10_counterexample :
    runSave (fun _ => true) "settings.json" 0 (7 : Nat) false freshNat =
      ({ cache := some 7, cacheTimestamp := 0, isDirty := true, timer := some 1000, inflight := false }, [], none) ∧
    invalidateCache ({ cache := some 7, cacheTimestamp := 0, isDirty := true, timer := some 1000, inflight := false } : Store Nat) =
      { cache := none, cacheTimestamp := 0, isDirty := true, timer := some 1000, inflight := false } ∧
    flush ({ cache := none, cacheTimestamp := 0, isDirty := true, timer := some 1000, inflight := false } : Store Nat) =
      ({ cache := none, cacheTimestamp := 0, isDirty := true, timer := none, inflight := false }, []) ∧
    hasPendingChanges ({ cache := none, cacheTimestamp := 0, isDirty := true, timer := none, inflight := false } : Store Nat) = true := by
  refine ⟨?_, ?_, ?_, rfl⟩ <;> rfl

/-- Witness for claim C1 at a concrete store: a fresh empty-cache store, a load at time 0,
two joining calls at times 1 and 2, and completion with on-disk value 5. -/
theorem claim_C1_load_dedup_witness :
    (loadStart 0 freshNat).effs = [Eff.read] ∧
    loadCalls [1, 2] (loadStart 0 freshNat).st = ((loadStart 0 freshNat).st, []) ∧
    (loadStart 1 (loadStart 0 freshNat).st).res = LoadStartRes.joined ∧
    (loadComplete (fun _ => true) 0 0 (DiskData.data 5) (loadStart 0 freshNat).st).st.inflight
      = false ∧
    (loadStart 2000
        (loadComplete (fun _ => true) 0 0 (DiskData.data 5) (loadStart 0 freshNat).st).st).effs
      = [Eff.read] := by
  have h := claim_C1_load_dedup (fun _ => true) 0 freshNat 0 (DiskData.data 5) rfl
    (Or.inl rfl)
  exact ⟨h.1, h.2.2.1 [1, 2], h.2.2.2.1 1, h.2.2.2.2.1, h.2.2.2.2.2 rfl 2000 (by decide)⟩

/-- Witness for claim C2 at a concrete run: two debounced saves at times 0 and 500 on a
fresh store; no write during the window, one write of the last value at the timer fire. -/
theorem claim_C2_debounce_witness :
    saveSeq (fun _ => true) "p" [(0, 3), (500, 4)] freshNat =
      Except.ok ({ cache := some 4, cacheTimestamp := 500, isDirty := true, timer := some 1500, inflight := false }, []) ∧
    timerFire ({ cache := some 4, cacheTimestamp := 500, isDirty := true, timer := some 1500, inflight := false } : Store Nat) =
      ({ cache := some 4, cacheTimestamp := 500, isDirty := false, timer := none, inflight := false }, [Eff.write 4]) := by
  have h := claim_C2_debounce (fun _ => true) "p" [(0, 3), (500, 4)] freshNat 500 4
    (by decide) (by decide) (by decide) (by decide)
  exact ⟨h.1, h.2.1⟩

/-- Witness for claim C3 at a concrete store: a cache stamped at 0 read at 100, and a
debounced save at 100 read back at 1500. -/
theorem claim_C3_cache_ttl_witness :
    loadStart 100 cachedNat =
      { st := cachedNat, effs := [], res := LoadStartRes.cached 3 } ∧
    loadStart 1500 ({ cache := some 9, cacheTimestamp := 100, isDirty := true, timer := some 1100, inflight := false } : Store Nat) =
      { st := { cache := some 9, cacheTimestamp := 100, isDirty := true, timer := some 1100, inflight := false }, effs := [], res := LoadStartRes.cached 9 } := by
  have h := claim_C3_cache_ttl (fun _ => true) "p" cachedNat 3 9 100 1500 false
  exact ⟨h.1 rfl rfl (by decide),
    h.2 ({ cache := some 9, cacheTimestamp := 100, isDirty := true, timer := some 1100, inflight := false }) [] rfl rfl (by decide)⟩

/-- Witness for claim C4 at a concrete store: a validator rejecting everything and a save
of 9 in both modes. -/
theorem claim_C4_validation_gate_witness :
    runSave (fun _ => false) "p" 0 (9 : Nat) true freshNat =
      (freshNat, [], some { msg := "Data validation failed", path := "p" }) ∧
    runSave (fun _ => false) "p" 0 (9 : Nat) false freshNat =
      (freshNat, [], some { msg := "Data validation failed", path := "p" }) := by
  exact claim_C4_validation_gate (fun _ => false) "p" 0 9 freshNat rfl

/-- Witness for claim C5 at a concrete store: validator accepting only 0, default 0,
invalid on-disk value 1. -/
theorem claim_C5_corruption_recovery_witness :
    ((loadComplete (fun n => decide (n = 0)) 0 7 DiskData.missing freshNat).res = 0 ∧
      (loadComplete (fun n => decide (n = 0)) 0 7 DiskData.missing freshNat).effs = []) ∧
    ((loadComplete (fun n => decide (n = 0)) 0 7 DiskData.corrupt freshNat).res = 0 ∧
      (loadComplete (fun n => decide (n = 0)) 0 7 DiskData.corrupt freshNat).effs = []) ∧
    (loadComplete (fun n => decide (n = 0)) 0 7 (DiskData.data 1) freshNat =
      { st := { freshNat with inflight := false }, res := 0, effs := [] }) := by
  exact claim_C5_corruption_recovery (fun n => decide (n = 0)) 0 7 freshNat 1 (by decide)

/-- Witness for the amended claim C10 at a concrete store: a dirty cached store, saves of
8 at time 50, and the flush/timer behaviors. -/
theorem claim_C10_dirty_flag_witness :
    runSave (fun _ => true) "p" 50 (8 : Nat) false
        ({ cache := some 2, cacheTimestamp := 0, isDirty := true, timer := some 1000, inflight := false }) =
      ({ cache := some 8, cacheTimestamp := 50, isDirty := true, timer := some 1050, inflight := false }, [], none) ∧
    flush ({ cache := some 2, cacheTimestamp := 0, isDirty := true, timer := some 1000, inflight := false } : Store Nat) =
      ({ cache := some 2, cacheTimestamp := 0, isDirty := false, timer := none, inflight := false }, [Eff.write 2]) ∧
    (flush ({ cache := some 2, cacheTimestamp := 0, isDirty := false, timer := none, inflight := false } : Store Nat)).2 = [] := by
  have h := claim_C10_dirty_flag (fun _ => true) "p" 50 8
    ({ cache := some 2, cacheTimestamp := 0, isDirty := true, timer := some 1000, inflight := false }) 2
  have h2 := claim_C10_dirty_flag (fun _ => true) "p" 50 8
    ({ cache := some 2, cacheTimestamp := 0, isDirty := false, timer := none, inflight := false }) 2
  exact ⟨(h.1 rfl).1, (h.2.2.1 rfl rfl).1, h2.2.2.2.1 rfl⟩

end PodStore

namespace PodFeed

/-- Claim C6 (amended): with `useCache = true`, a cache store configured, and a
non-expired cache entry for the URL whose XML is detected as RSS or Atom and parsed
successfully by the format-appropriate parser, `fetchFeed` returns exactly that parser's
result on the cached XML and performs zero network requests; when detection yields
`unknown` or the parser fails, the cached entry is ignored and a network fetch occurs. -/
theorem claim_C6_feed_cache (rssValid atomValid : String → Bool)
    (rssParse atomParse : String → Option ParsedFeed)
    (db : List (String × CacheEntry)) (now : Nat) (u : String)
    (net : Except FetchErr FetchedXml) (e : CacheEntry) (r : ParsedFeed)
    (hentry : getCacheEntry db now u = some e)
    (hparse :
      (detectFeedType rssValid atomValid e.data = FeedType.rss ∧
        rssParse e.data = some r) ∨
      (detectFeedType rssValid atomValid e.data = FeedType.atom ∧
        atomParse e.data = some r)) :
    fetchFeed rssValid atomValid rssParse atomParse true (some db) now u net =
      (Except.ok r, false) := by
  have hc : getCachedFeed rssValid atomValid rssParse atomParse db now u = some r := by
    rcases hparse with ⟨hd, hp⟩ | ⟨hd, hp⟩ <;> simp [getCachedFeed, hentry, hd, hp]
  simp [fetchFeed, hc]

/-- Claim C6, counterexample to the claim as stated: a non-expired cache entry exists for
the URL (payload "hello", cached at 0 with TTL 1000, queried at 500), yet `fetchFeed` with
`useCache = true` performs a network request, because the cached payload is not detected
as RSS or Atom and the entry is silently ignored. -/
theorem claim_C6_counterexample :
    (getCacheEntry c6db 500 c6url).isSome = true ∧
    fetchFeed rssValidateXML atomValidateXML rssParseFromString atomParseFromString
        true (some c6db) 500 c6url (Except.ok c6net) =
      (Except.ok { sourceXml := c6net.xml }, true) := by
  exact ⟨rfl, rfl⟩

/-- Witness for the amended claim C6: a cached RSS document is returned straight from the
cache with no network request. -/
theorem claim_C6_feed_cache_witness :
    fetchFeed rssValidateXML atomValidateXML rssParseFromString atomParseFromString
        true (some c6goodDb) 500 c6url (Except.ok c6net) =
      (Except.ok { sourceXml := cachedRssXml }, false) :=
  claim_C6_feed_cache rssValidateXML atomValidateXML rssParseFromString
    atomParseFromString c6goodDb 500 c6url (Except.ok c6net)
    ({ data := cachedRssXml, cachedAt := 0, ttl := 1000, etag := none,
       lastModified := none })
    ({ sourceXml := cachedRssXml }) rfl (Or.inl ⟨rfl, rfl⟩)

/-- Claim C7 (amended): `detectFeedType` returns RSS whenever the trimmed lowercased text
contains `<rss` — even when that substring comes from CDATA inside an Atom feed; returns
ATOM when the text lacks `<rss` but contains `<feed` together with the Atom namespace;
otherwise returns the first of RSS/Atom whose schema validator accepts the text; otherwise
UNKNOWN. The validators are consulted only when neither substring test fires; they never
override the substring sniffing. -/
theorem claim_C7_detect_order (rssValid atomValid : String → Bool) (xml : String) :
    (containsSub (toLowerStr (trimStr xml)) "<rss" = true →
      detectFeedType rssValid atomValid xml = FeedType.rss) ∧
    (containsSub (toLowerStr (trimStr xml)) "<rss" = false →
      containsSub (toLowerStr (trimStr xml)) "<feed" = true →
      containsSub (toLowerStr (trimStr xml)) atomNs = true →
      detectFeedType rssValid atomValid xml = FeedType.atom) ∧
    (containsSub (toLowerStr (trimStr xml)) "<rss" = false →
      (containsSub (toLowerStr (trimStr xml)) "<feed" &&
        containsSub (toLowerStr (trimStr xml)) atomNs) = false →
      rssValid xml = true →
      detectFeedType rssValid atomValid xml = FeedType.rss) ∧
    (containsSub (toLowerStr (trimStr xml)) "<rss" = false →
      (containsSub (toLowerStr (trimStr xml)) "<feed" &&
        containsSub (toLowerStr (trimStr xml)) atomNs) = false →
      rssValid xml = false → atomValid xml = true →
      detectFeedType rssValid atomValid xml = FeedType.atom) ∧
    (containsSub (toLowerStr (trimStr xml)) "<rss" = false →
      (containsSub (toLowerStr (trimStr xml)) "<feed" &&
        containsSub (toLowerStr (trimStr xml)) atomNs) = false →
      rssValid xml = false → atomValid xml = false →
      detectFeedType rssValid atomValid xml = FeedType.unknown) := by
  refine ⟨?_, ?_, ?_, ?_, ?_⟩
  · intro h1
    simp [detectFeedType, h1]
  · intro h1 h2 h3
    simp [detectFeedType, h1, h2, h3]
  · intro h1 h2 h3
    simp [detectFeedType, h1, h2, h3]
  · intro h1 h2 h3 h4
    simp [detectFeedType, h1, h2, h3, h4]
  · intro h1 h2 h3 h4
    simp [detectFeedType, h1, h2, h3, h4]

/-- Claim C7, counterexample to the claim as stated: an Atom feed embedding an `<rss`-like
string inside CDATA — the ambiguous case the claim names — is classified RSS by the
substring sniffing regardless of the validators, here with the Atom validator accepting
the document and the RSS validator rejecting it; structural validation is never consulted
and does not decide the type. -/
theorem claim_C7_counterexample :
    detectFeedType (fun _ => false) (fun _ => true) atomCdataXml = FeedType.rss ∧
    detectFeedType (fun _ => false) (fun _ => true) atomCdataXml ≠ FeedType.atom ∧
    containsSub (toLowerStr (trimStr atomCdataXml)) "<rss" = true ∧
    containsSub (toLowerStr (trimStr atomCdataXml)) "<feed" = true ∧
    containsSub (toLowerStr (trimStr atomCdataXml)) atomNs = true := by
  refine ⟨rfl, by decide, rfl, rfl, rfl⟩

/-- Witness for the amended claim C7 at concrete documents: an RSS sample is classified
RSS by the first substring test, an Atom sample is classified ATOM by the second. -/
theorem claim_C7_detect_order_witness :
    detectFeedType rssValidateXML atomValidateXML rssSampleXml = FeedType.rss ∧
    detectFeedType rssValidateXML atomValidateXML atomSampleXml = FeedType.atom := by
  exact ⟨(claim_C7_detect_order rssValidateXML atomValidateXML rssSampleXml).1 (by decide),
    (claim_C7_detect_order rssValidateXML atomValidateXML atomSampleXml).2.1 (by decide)
      (by decide) (by decide)⟩

/-- Claim C8: when the tier-1 stage reports 304 Not Modified (every `requestUrl` attempt
under the retry wrapper yields status 304), `fetchFeedXML` propagates the distinguished
not-modified signal to the caller without attempting tier 2 or tier 3 and without
converting it into a NetworkError; and when all three tiers fail for any other reason,
`fetchFeedXML` raises a NetworkError carrying the feed URL and the tier-3 (innermost)
cause. -/
theorem claim_C8_transport_fallback (u : String) (t1 : Nat → Except FetchErr HttpResp)
    (t2 t3 : Except FetchErr HttpResp) :
    ((∀ i, tier1Attempt u (t1 i) = Except.error FetchErr.notModifiedSig) →
      fetchFeedXML u t1 t2 t3 = (Except.error FetchErr.notModifiedSig, false, false)) ∧
    (∀ e e2 e3 : FetchErr,
      retryWithBackoff (fun i => tier1Attempt u (t1 i)) 0 3 = Except.error e →
      e ≠ FetchErr.notModifiedSig →
      tier2Run t2 = Except.error e2 →
      tier3Run t3 = Except.error e3 →
      fetchFeedXML u t1 t2 t3 =
        (Except.error (FetchErr.networkCause "Failed to fetch feed" u e3), true, true)) := by
  constructor
  · intro h
    have hr : retryWithBackoff (fun i => tier1Attempt u (t1 i)) 0 3 =
        Except.error FetchErr.notModifiedSig := by
      simp [retryWithBackoff, h 0, h 1, h 2]
    simp [fetchFeedXML, hr]
  · intro e e2 e3 hr hne h2 h3
    simp [fetchFeedXML, hr, hne, h2, h3]

/-- Witness for claim C8 at concrete transports: a persistent 304 propagates untouched
with no fallback, and a total failure of all tiers yields a NetworkError carrying the URL
and the tier-3 cause. -/
theorem claim_C8_transport_fallback_witness :
    fetchFeedXML c6url (fun _ => Except.ok resp304)
        (Except.error (FetchErr.transport "t2down"))
        (Except.error (FetchErr.transport "t3down")) =
      (Except.error FetchErr.notModifiedSig, false, false) ∧
    fetchFeedXML c6url (fun _ => Except.error (FetchErr.transport "boom"))
        (Except.error (FetchErr.transport "t2down"))
        (Except.error (FetchErr.transport "t3down")) =
      (Except.error
        (FetchErr.networkCause "Failed to fetch feed" c6url (FetchErr.transport "t3down")),
        true, true) := by
  refine ⟨(claim_C8_transport_fallback c6url (fun _ => Except.ok resp304)
      (Except.error (FetchErr.transport "t2down"))
      (Except.error (FetchErr.transport "t3down"))).1 (fun i => rfl),
    (claim_C8_transport_fallback c6url (fun _ => Except.error (FetchErr.transport "boom"))
      (Except.error (FetchErr.transport "t2down"))
      (Except.error (FetchErr.transport "t3down"))).2
      (FetchErr.transport "boom") (FetchErr.transport "t2down")
      (FetchErr.transport "t3down") rfl (by decide) rfl rfl⟩

end PodFeed

namespace PodSettings

/-- When every field of the loaded settings is present, its serialization coincides with
the serialization of the migration merge, whatever the defaults: the merge only fills in
absent fields. -/
theorem toks_eq_of_complete (d : PluginSettings) (s : LoadedSettings)
    (h : completeLoaded s = true) :
    loadedToks s = settingsToks (migrateSettings d s) := by
  simp only [completeLoaded, Bool.and_eq_true] at h
  obtain ⟨⟨⟨⟨⟨h1, hm⟩, h3⟩, h4⟩, h5⟩, h6⟩ := h
  obtain ⟨a1, e1⟩ := Option.isSome_iff_exists.mp h1
  obtain ⟨a3, e3⟩ := Option.isSome_iff_exists.mp h3
  obtain ⟨a4, e4⟩ := Option.isSome_iff_exists.mp h4
  obtain ⟨a5, e5⟩ := Option.isSome_iff_exists.mp h5
  obtain ⟨a6, e6⟩ := Option.isSome_iff_exists.mp h6
  cases hpb : s.defaultPlaybackSettings with
  | none => rw [hpb] at hm; simp at hm
  | some p =>
    rw [hpb] at hm
    simp only [completePb, Bool.and_eq_true] at hm
    obtain ⟨⟨⟨hv1, hv2⟩, hv3⟩, hv4⟩ := hm
    obtain ⟨b1, f1⟩ := Option.isSome_iff_exists.mp hv1
    obtain ⟨b2, f2⟩ := Option.isSome_iff_exists.mp hv2
    obtain ⟨b3, f3⟩ := Option.isSome_iff_exists.mp hv3
    obtain ⟨b4, f4⟩ := Option.isSome_iff_exists.mp hv4
    simp [loadedToks, settingsToks, migrateSettings, mergePb, pbToks, loadedPbToks,
      optEntry, e1, e3, e4, e5, e6, hpb, f1, f2, f3, f4]

/-- Claim C9: `loadWithMigration()` returns the loaded settings merged over the defaults —
top-level fields shallowly, the nested playback object one level deep — and persists the
merged result exactly when it differs from the loaded value under JSON serialization; in
particular, when the loaded settings already have all fields, nothing is written. -/
theorem claim_C9_load_with_migration (d : PluginSettings) (s : LoadedSettings) :
    (loadWithMigration d s).1.dataFolderPath = s.dataFolderPath.getD d.dataFolderPath ∧
    (loadWithMigration d s).1.autoDownload = s.autoDownload.getD d.autoDownload ∧
    (loadWithMigration d s).1.maxCacheEpisodes =
      s.maxCacheEpisodes.getD d.maxCacheEpisodes ∧
    (loadWithMigration d s).1.feedUpdateInterval =
      s.feedUpdateInterval.getD d.feedUpdateInterval ∧
    (loadWithMigration d s).1.enableNotifications =
      s.enableNotifications.getD d.enableNotifications ∧
    (loadWithMigration d s).1.defaultPlaybackSettings.volume =
      (s.defaultPlaybackSettings.getD emptyLoadedPb).volume.getD
        d.defaultPlaybackSettings.volume ∧
    (loadWithMigration d s).1.defaultPlaybackSettings.playbackSpeed =
      (s.defaultPlaybackSettings.getD emptyLoadedPb).playbackSpeed.getD
        d.defaultPlaybackSettings.playbackSpeed ∧
    (loadWithMigration d s).1.defaultPlaybackSettings.skipIntroSeconds =
      (s.defaultPlaybackSettings.getD emptyLoadedPb).skipIntroSeconds.getD
        d.defaultPlaybackSettings.skipIntroSeconds ∧
    (loadWithMigration d s).1.defaultPlaybackSettings.skipOutroSeconds =
      (s.defaultPlaybackSettings.getD emptyLoadedPb).skipOutroSeconds.getD
        d.defaultPlaybackSettings.skipOutroSeconds ∧
    ((loadWithMigration d s).2 = true ↔
      loadedToks s ≠ settingsToks (migrateSettings d s)) ∧
    (completeLoaded s = true → (loadWithMigration d s).2 = false) := by
  refine ⟨rfl, rfl, rfl, rfl, rfl, rfl, rfl, rfl, rfl, ?_, ?_⟩
  · simp [loadWithMigration]
  · intro h
    simp [loadWithMigration, toks_eq_of_complete d s h]

/-- Witness for claim C9 at concrete settings: a fully-populated loaded value merged over
the modelled defaults keeps its own fields and is not re-persisted. -/
theorem claim_C9_load_with_migration_witness :
    (loadWithMigration DEFAULT_SETTINGS fullLoaded).1.dataFolderPath = "custom/path" ∧
    (loadWithMigration DEFAULT_SETTINGS fullLoaded).2 = false := by
  have h := claim_C9_load_with_migration DEFAULT_SETTINGS fullLoaded
  exact ⟨h.1.trans rfl, h.2.2.2.2.2.2.2.2.2.2 (by decide)⟩

end PodSettings
